import Mathlib

/-!
Verification development for the ODDSFORGE simulation and edge-scoring engine
(src/app.py together with the team / injury helpers of src/nba_data.py).

Shallow embedding conventions:
* Python floats are modelled as rationals.  `round(x, d)` on floats is modelled by
  round-half-to-even on rationals (`pyRound`), `int(x)` by truncation toward zero
  (`pyInt`).
* `datetime` values are modelled as rational numbers of minutes on the UTC clock,
  so that `minutes_to_tip = game_time - now` directly mirrors
  `(game_time - now).total_seconds() / 60`.
* The numpy draws `rng.normal(mean, sd, SIMULATIONS)` are abstracted by a
  sampling oracle in the environment: for each market the oracle returns the
  summary statistics that `run_simulation` extracts from the sample
  (`np.mean(sample)`, `np.mean(sample > line)`, `np.mean(sample < line)` and, for
  the spread market, `np.mean(margins)` and `np.mean(margins > 0)`).  No claim
  below concerns the distribution of the draw itself.
* Code that can raise an uncaught Python exception (for example the
  `ZeroDivisionError` of `1 / odds`) is modelled in an `Except Unit` layer.
* The network fetches (`fetch_nba_totals_odds`, `get_injury_context`) are inputs
  in the environment record, keyed exactly the way the code reads them.
* Display-only message strings keep the fields that the code interpolates but
  elide the emoji / decorative text; no claim depends on message contents.
-/

attribute [local semireducible] Rat.mul Rat.add Rat.sub Rat.inv Rat.ofScientific

/-- Association-list lookup; models Python `dict.get` on the small dicts the
code builds (first matching key wins; the embedded dicts never repeat keys). -/
def alookup {α β : Type} [DecidableEq α] (k : α) : List (α × β) → Option β
  | [] => none
  | (k2, v) :: rest => if k2 = k then some v else alookup k rest

/-- Replace the value stored under the first occurrence of a key. -/
def aupdate {α β : Type} [DecidableEq α] (k : α) (v : β) : List (α × β) → List (α × β)
  | [] => []
  | (k2, v2) :: rest => if k2 = k then (k2, v) :: rest else (k2, v2) :: aupdate k v rest

/-- Floor of a rational (equals `Int.floor`, see `ratFloor_eq_floor`). -/
def ratFloor (x : ℚ) : ℤ := x.num / x.den

/-- Python `int(x)` on a float: truncation toward zero. -/
def pyInt (x : ℚ) : ℤ := if 0 ≤ x then ratFloor x else -(ratFloor (-x))

/-- Python `round` to an integer: round half to even (banker rounding). -/
def round_half_even (x : ℚ) : ℤ :=
  let f := ratFloor x
  if x - f < 1/2 then f
  else if x - f > 1/2 then f + 1
  else if f % 2 = 0 then f else f + 1

/-- Python `round(x, d)` on floats, modelled on rationals. -/
def pyRound (d : ℕ) (x : ℚ) : ℚ := (round_half_even (x * 10 ^ d) : ℚ) / 10 ^ d

/-- Python `str(True) / str(False)` as used in the injury fingerprint f-string. -/
def pybool (b : Bool) : String := if b then "True" else "False"

/-- Is `n` a prefix of `h`?  (List-level helper for the Python `in` substring
test; written out structurally so that the kernel can evaluate it.) -/
def leads_chars : List Char → List Char → Bool
  | [], _ => true
  | _ :: _, [] => false
  | a :: as, b :: bs => a = b && leads_chars as bs

/-- Is `n` a contiguous substring of `h`?  Models Python `n in h` on strings. -/
def contains_chars : List Char → List Char → Bool
  | n, [] => leads_chars n []
  | n, b :: bs => leads_chars n (b :: bs) || contains_chars n bs

/-- Python `.strip()` for the space-separated team names. -/
def strip_spaces (l : List Char) : List Char :=
  ((l.dropWhile (fun c => c = ' ')).reverse.dropWhile (fun c => c = ' ')).reverse

-- =========================================================
-- nba_data.py : TEAM NAME -> ABBREVIATION
-- =========================================================

def TEAM_ABBR_MAP : List (String × String) := [
  ("atlanta hawks", "ATL"), ("boston celtics", "BOS"), ("brooklyn nets", "BKN"),
  ("charlotte hornets", "CHA"), ("chicago bulls", "CHI"), ("cleveland cavaliers", "CLE"),
  ("dallas mavericks", "DAL"), ("denver nuggets", "DEN"), ("detroit pistons", "DET"),
  ("golden state warriors", "GSW"), ("houston rockets", "HOU"), ("indiana pacers", "IND"),
  ("los angeles clippers", "LAC"), ("la clippers", "LAC"), ("los angeles lakers", "LAL"),
  ("la lakers", "LAL"), ("memphis grizzlies", "MEM"), ("miami heat", "MIA"),
  ("milwaukee bucks", "MIL"), ("minnesota timberwolves", "MIN"),
  ("new orleans pelicans", "NOP"), ("new york knicks", "NYK"),
  ("oklahoma city thunder", "OKC"), ("orlando magic", "ORL"),
  ("philadelphia 76ers", "PHI"), ("phoenix suns", "PHX"),
  ("portland trail blazers", "POR"), ("sacramento kings", "SAC"),
  ("san antonio spurs", "SAS"), ("toronto raptors", "TOR"),
  ("utah jazz", "UTA"), ("washington wizards", "WAS")]

def TEAM_ALIASES : List (String × String) := [
  ("lakers", "los angeles lakers"), ("warriors", "golden state warriors"),
  ("clippers", "los angeles clippers"), ("knicks", "new york knicks"),
  ("pelicans", "new orleans pelicans"), ("spurs", "san antonio spurs"),
  ("suns", "phoenix suns"), ("bucks", "milwaukee bucks"),
  ("celtics", "boston celtics"), ("nets", "brooklyn nets"),
  ("heat", "miami heat"), ("bulls", "chicago bulls"),
  ("nuggets", "denver nuggets"), ("mavericks", "dallas mavericks"),
  ("timberwolves", "minnesota timberwolves"), ("wolves", "minnesota timberwolves"),
  ("thunder", "oklahoma city thunder"), ("raptors", "toronto raptors"),
  ("jazz", "utah jazz"), ("kings", "sacramento kings"),
  ("grizzlies", "memphis grizzlies"), ("rockets", "houston rockets"),
  ("pacers", "indiana pacers"), ("pistons", "detroit pistons"),
  ("magic", "orlando magic"), ("sixers", "philadelphia 76ers"),
  ("76ers", "philadelphia 76ers"), ("wizards", "washington wizards")]

/-- `re.sub(r"[^a-z0-9 ]", "", name.lower()).strip()` from `normalize_team_name`. -/
def clean_team_name (name : String) : String :=
  String.mk (strip_spaces ((name.data.map Char.toLower).filter
    (fun c => (Char.isLower c ∨ Char.isDigit c) ∨ c = ' ')))

/-- `nba_data.normalize_team_name`: direct match, alias match, then the safe
partial (substring) fuzzy match over the canonical keys. -/
def normalize_team_name (name : String) : Option String :=
  if name = "" then none
  else
    let clean := clean_team_name name
    if (alookup clean TEAM_ABBR_MAP).isSome then some clean
    else
      match alookup clean TEAM_ALIASES with
      | some canonical => some canonical
      | none =>
        match TEAM_ABBR_MAP.find? (fun kv => contains_chars clean.data kv.fst.data) with
        | some kv => some kv.fst
        | none => none

/-- `nba_data.team_name_to_abbr`. -/
def team_name_to_abbr (name : String) : Option String :=
  match normalize_team_name name with
  | none => none
  | some canonical => alookup canonical TEAM_ABBR_MAP

-- =========================================================
-- app.py : MATH HELPERS
-- =========================================================

/-- `implied_prob(odds) = 1 / odds`; Python raises `ZeroDivisionError` at 0,
modelled as `none`. -/
def implied_prob (odds : ℚ) : Option ℚ :=
  if odds = 0 then none else some (1 / odds)

/-- `calibrate_prob(p, strength=0.65) = 0.5 + (p - 0.5) * strength`. -/
def calibrate_prob (p : ℚ) (strength : ℚ := 13/20) : ℚ :=
  1/2 + (p - 1/2) * strength

/-- `cap_edge(e, cap=0.12) = max(min(e, cap), -cap)`. -/
def cap_edge (e : ℚ) (cap : ℚ := 12/100) : ℚ :=
  max (min e cap) (-cap)

/-- `percentile_position(arr, line) = round(np.mean(arr < line) * 100, 1)`;
the sample fraction below the line is supplied by the sampling oracle. -/
def percentile_position (frac_below : ℚ) : ℚ := pyRound 1 (frac_below * 100)

/-- `lean_signal(edge, pct)`. -/
def lean_signal (edge pct : ℚ) : String :=
  if edge ≥ 5/1000 then "BET"
  else if pct ≤ 45 then "WATCH OVER"
  else if pct ≥ 55 then "WATCH UNDER"
  else "PASS"

/-- `confidence_score(edge, fair, line, pct)`. -/
def confidence_score (edge fair line pct : ℚ) : ℤ :=
  pyInt (min (|edge| * 400 + |fair - line| * 3 + |50 - pct|) 100)

/-- `confidence_tier(score)`. -/
def confidence_tier (score : ℤ) : String :=
  if score ≥ 72 then "ELITE"
  else if score ≥ 67 then "VERY STRONG"
  else if score ≥ 60 then "STRONG"
  else if score ≥ 56 then "LEAN"
  else "NOISE"

/-- `win_prob_tier(win_pct)` for the spread / h2h path. -/
def win_prob_tier (win_pct : ℚ) : String :=
  if win_pct ≥ 72 then "ELITE"
  else if win_pct ≥ 67 then "VERY STRONG"
  else if win_pct ≥ 60 then "STRONG"
  else if win_pct ≥ 56 then "LEAN"
  else "NO BET"

/-- Ordinal rank of the five-label confidence vocabulary,
NOISE < LEAN < STRONG < VERY STRONG < ELITE. -/
def tierRank (t : String) : ℕ :=
  if t = "ELITE" then 4
  else if t = "VERY STRONG" then 3
  else if t = "STRONG" then 2
  else if t = "LEAN" then 1
  else 0

/-- `allow_h2h_bet`.  Note: the first test in the source is
`tier in ("NO BET")`, where `("NO BET")` is a plain string, so Python performs
a substring test; `contains_chars` reproduces that. -/
def allow_h2h_bet (win_pct fair_odds : ℚ) (tier : String) : Bool :=
  if contains_chars tier.data ("NO BET").data then false
  else if fair_odds < 29/20 then false
  else if win_pct < 52 then false
  else if 23/10 ≤ fair_odds ∧ tier ≠ "ELITE" then false
  else true

/-- `allow_spread_bet`. -/
def allow_spread_bet (win_pct : ℚ) (tier : String) : Bool :=
  if tier = "NO BET" ∨ tier = "LEAN" then false
  else if win_pct < 55 then false
  else true

/-- The one-step promotion dict of the defensive confidence bump,
`{"LEAN": "STRONG", "STRONG": "VERY STRONG", "VERY STRONG": "ELITE"}.get(tier, tier)`. -/
def bump_map (t : String) : String :=
  if t = "LEAN" then "STRONG"
  else if t = "STRONG" then "VERY STRONG"
  else if t = "VERY STRONG" then "ELITE"
  else t

-- =========================================================
-- DATA MODEL
-- =========================================================

/-- The injury-context snapshot for one team, with exactly the keys that
`run_simulation` reads via `ctx.get(...)`.  A missing key (Python `None`) and
an explicit `False` are both falsy in every branch of the code, so both are
modelled as `false` / `[]`. -/
structure InjuryCtx where
  tier_1_out : Bool := false
  tier_2_out : Bool := false
  def_tier_1_out : Bool := false
  def_tier_2_out : Bool := false
  questionable : Bool := false
  doubtful : Bool := false
  tier_1_players_out : List String := []
  tier_2_players_out : List String := []
  def_tier_1_players_out : List String := []
  def_tier_2_players_out : List String := []
  questionable_players : List String := []
deriving DecidableEq

/-- One market entry of the odds feed: `{line, over_odds, under_odds}`. -/
structure OddsEntry where
  line : ℚ
  over_odds : ℚ
  under_odds : ℚ
deriving DecidableEq

/-- `SimulationRequest` (the pydantic input model); `game_time` is optional
because the code guards `if not game_time`. -/
structure SimulationRequest where
  team_a : String
  team_b : String
  game_time : Option ℚ
  base_team_a_points : ℚ := 115
  base_team_b_points : ℚ := 112
  home_team : String := "A"
  team_a_travel_km : ℚ := 0
  team_b_travel_km : ℚ := 0
  team_a_b2b : Bool := false
  team_b_b2b : Bool := false
deriving DecidableEq

/-- Summary statistics of the spread-market draw
`margins = rng.normal(spread_mean, spread_sd, SIMULATIONS)`. -/
structure SpreadStats where
  margin_mean : ℚ
  frac_margin_pos : ℚ
deriving DecidableEq

/-- Summary statistics of a totals-market draw
`totals = rng.normal(adj_mean, adj_sd, SIMULATIONS)` against the market line. -/
structure TotalsStats where
  sample_mean : ℚ
  frac_above_line : ℚ
  frac_below_line : ℚ
deriving DecidableEq

/-- The external world of one evaluation: clock, odds feed, injury feed and the
sampling oracle (indexed by the mean / standard deviation the code feeds to
`rng.normal`). -/
structure Env where
  now : ℚ
  today : ℤ
  odds_map : List ((String × String) × List (String × OddsEntry))
  injury_map : List (String × InjuryCtx)
  spread_stats : ℚ → ℚ → SpreadStats
  totals_stats : String → ℚ → ℚ → TotalsStats
  show_injuries_in_daily : Bool := false

/-- One entry of the `PREGAME_ALERTS` dict. -/
structure PregameAlert where
  game_time : Option ℚ
  message : Option String
  home_abbr : String
  away_abbr : String
  sent_10 : Bool := false
  sent_5 : Bool := false
deriving DecidableEq

/-- The process-wide alert state: `SENT_ALERTS`, `DAILY_SENT_ALERTS`,
`PREGAME_ALERTS` and `ALERT_DAY`. -/
structure AlertState where
  sent_alerts : List String := []
  daily_sent_alerts : List String := []
  pregame_alerts : List (String × PregameAlert) := []
  alert_day : ℤ := 0
deriving DecidableEq

/-- `reset_alerts_if_new_day`: on a day rollover both emitted-fingerprint sets
are cleared wholesale; `PREGAME_ALERTS` is not touched. -/
def reset_alerts_if_new_day (today : ℤ) (s : AlertState) : AlertState :=
  if today ≠ s.alert_day then
    { s with sent_alerts := [], daily_sent_alerts := [], alert_day := today }
  else s

/-- One per-market result record of the results map. -/
inductive MarketResult where
  | spread (fair_spread home_win_pct away_win_pct : ℚ)
  | h2h (home_win_pct away_win_pct fair_home_odds fair_away_odds : ℚ)
  | totals (line fair edge pct : ℚ) (tier signal : String)
      (pace_adjust variance_adjust : ℚ)
deriving DecidableEq

/-- State threaded through the market loop: the accumulating results map, the
alert state, the outbound telegram messages, and the `daily_message` local
variable (which in Python persists across loop iterations). -/
structure LoopState where
  results : List (String × MarketResult) := []
  alerts : AlertState := {}
  msgs : List String := []
  daily_message : Option String := none

/-- The value `run_simulation` hands back: `None` (for unrecognized teams or a
matchup without a usable core market) or a `game / markets` record. -/
inductive RunResult where
  | invalid
  | ok (game : String) (markets : List (String × MarketResult))
deriving DecidableEq

-- =========================================================
-- app.py : SITUATIONAL ADJUSTER (lines 381-428)
-- =========================================================

/-- `PACE_MODIFIERS` / `DEF_TOTALS_IMPACT` and the spread-variance constants. -/
def TIER_1_PACE : ℚ := 3/2
def TIER_1_VARIANCE : ℚ := 8/10
def TIER_2_PACE : ℚ := -1
def TIER_2_VARIANCE : ℚ := 2/10
def DEF_TIER_1_IMPACT : ℚ := -125/100
def DEF_TIER_2_IMPACT : ℚ := -75/100

/-- Home court, back-to-back fatigue, travel stack and pure travel fatigue:
everything of the adjustment block before the altitude step. -/
def adjust_points_pre_altitude (req : SimulationRequest) : ℚ × ℚ :=
  let adj_a := req.base_team_a_points
  let adj_b := req.base_team_b_points
  let adj_a := if req.home_team = "A" then adj_a + 5/2 else adj_a
  let adj_b := if req.home_team = "A" then adj_b else adj_b + 5/2
  let adj_a := if req.team_a_b2b then adj_a - (if req.home_team = "A" then 1 else 2) else adj_a
  let adj_b := if req.team_b_b2b then adj_b - (if req.home_team = "B" then 1 else 2) else adj_b
  let adj_b := if req.team_b_b2b ∧ req.team_b_travel_km > 800 then adj_b - 1/2 else adj_b
  let adj_b :=
    if req.team_b_travel_km > 1500 then adj_b - 3/4
    else if req.team_b_travel_km > 800 then adj_b - 2/5
    else adj_b
  (adj_a, adj_b)

def HIGH_ALTITUDE : List String := ["DEN", "UTA"]

/-- The full adjustment pipeline ending with the altitude edge
(`if home_abbr in HIGH_ALTITUDE: adj_a += 0.6; adj_b -= 0.4`).  Note that
`home_abbr` is `team_name_to_abbr(req.team_a)` in `run_simulation`: team A is
always treated as the home venue. -/
def adjust_points (req : SimulationRequest) (home_abbr : String) : ℚ × ℚ :=
  let p := adjust_points_pre_altitude req
  if home_abbr ∈ HIGH_ALTITUDE then (p.1 + 3/5, p.2 - 2/5) else p

/-- Pace adjustment accumulated over both injury contexts (home first). -/
def pace_adjust_of (hc ac : InjuryCtx) : ℚ :=
  (if hc.tier_1_out then TIER_1_PACE else 0) + (if hc.tier_2_out then TIER_2_PACE else 0)
  + (if ac.tier_1_out then TIER_1_PACE else 0) + (if ac.tier_2_out then TIER_2_PACE else 0)

/-- Variance adjustment accumulated over both injury contexts. -/
def variance_adjust_of (hc ac : InjuryCtx) : ℚ :=
  (if hc.tier_1_out then TIER_1_VARIANCE else 0) + (if hc.tier_2_out then TIER_2_VARIANCE else 0)
  + (if ac.tier_1_out then TIER_1_VARIANCE else 0) + (if ac.tier_2_out then TIER_2_VARIANCE else 0)

/-- Defensive totals adjustment: `abs(DEF_TOTALS_IMPACT[...])` per flag. -/
def def_totals_adjust_of (hc ac : InjuryCtx) : ℚ :=
  (if hc.def_tier_1_out then |DEF_TIER_1_IMPACT| else 0)
  + (if hc.def_tier_2_out then |DEF_TIER_2_IMPACT| else 0)
  + (if ac.def_tier_1_out then |DEF_TIER_1_IMPACT| else 0)
  + (if ac.def_tier_2_out then |DEF_TIER_2_IMPACT| else 0)

/-- Defensive spread-variance adjustment (+10 percent / +6 percent). -/
def def_spread_variance_of (hc ac : InjuryCtx) : ℚ :=
  (if hc.def_tier_1_out then 10/100 else 0) + (if hc.def_tier_2_out then 6/100 else 0)
  + (if ac.def_tier_1_out then 10/100 else 0) + (if ac.def_tier_2_out then 6/100 else 0)

-- =========================================================
-- nba_data.py : lineups_confirmed
-- =========================================================

/-- `nba_data.lineups_confirmed`: false with no game time or more than 30
minutes (1800 seconds) before tip; otherwise true iff no side has a
questionable or doubtful player. -/
def lineups_confirmed (game_time_utc : Option ℚ) (now : ℚ)
    (injury_map : List (String × InjuryCtx)) (home away : String) : Bool :=
  match game_time_utc with
  | none => false
  | some gt =>
    if gt - now > 30 then false
    else
      let hc := (alookup home injury_map).getD {}
      let ac := (alookup away injury_map).getD {}
      !(hc.questionable || hc.doubtful || ac.questionable || ac.doubtful)

-- =========================================================
-- app.py : DEDUP GUARD AND DEFENSIVE BUMP
-- =========================================================

/-- The guarded-emission pattern shared by every alert site:
`if key not in SENT: SENT.add(key); <emit>`.  Returns whether the guarded
action fires together with the updated set. -/
def emit_guarded (sent : List String) (key : String) : Bool × List String :=
  if key ∈ sent then (false, sent) else (true, sent ++ [key])

/-- The defensive confidence bump (totals, OVER only; lines 936-947). -/
def def_bump (bet_side tier : String) (hc ac : InjuryCtx) : String :=
  if bet_side = "OVER" ∧ (tier = "LEAN" ∨ tier = "STRONG" ∨ tier = "VERY STRONG") then
    if hc.def_tier_1_out || ac.def_tier_1_out || hc.def_tier_2_out || ac.def_tier_2_out then
      bump_map tier
    else tier
  else tier

/-- The injury fingerprint f-string of the dedup key (lines 996-1005). -/
def injury_signature (hc ac : InjuryCtx) : String :=
  pybool hc.tier_1_out ++ "_" ++ pybool hc.tier_2_out ++ "_"
  ++ pybool ac.tier_1_out ++ "_" ++ pybool ac.tier_2_out ++ "_"
  ++ pybool hc.def_tier_1_out ++ "_" ++ pybool hc.def_tier_2_out ++ "_"
  ++ pybool ac.def_tier_1_out ++ "_" ++ pybool ac.def_tier_2_out

-- =========================================================
-- app.py : MARKET CONFIG (the dict iterates in insertion order)
-- =========================================================

/-- `MARKET_CONFIG` iteration order: game, spread, h2h, q1, q2, q3, q4. -/
def MARKET_ORDER : List String := ["game", "spread", "h2h", "q1", "q2", "q3", "q4"]

/-- Per-market simulation parameters (`mean_factor`, `sd`). -/
structure MarketCfg where
  mean_factor : ℚ
  sd : ℚ
deriving DecidableEq

def gameCfg : MarketCfg := { mean_factor := 1, sd := 12 }

def quarterCfg : MarketCfg := { mean_factor := 1/4, sd := 6 }

/-- `MARKET_CONFIG["spread"]["sd"]`. -/
def SPREAD_SD : ℚ := 12

def cfgOfMarket (m : String) : MarketCfg := if m = "game" then gameCfg else quarterCfg

/-- The odds-payload key consulted for each totals market (lines 753-764);
`none` models `odds = None` for any other market. -/
def totals_odds_key (market : String) : Option String :=
  if market = "game" then some "totals"
  else if market = "q1" then some "totals_q1"
  else if market = "q2" then some "totals_q2"
  else if market = "q3" then some "totals_q3"
  else if market = "q4" then some "totals_q4"
  else none

/-- `has_core_market = any(k in matchup_odds for k in (...))` (lines 362-374). -/
def has_core_market (matchup : List (String × OddsEntry)) : Bool :=
  (["totals", "spreads", "totals_q1", "totals_q2", "totals_q3", "totals_q4",
    "totals_h1"] : List String).any (fun k => (alookup k matchup).isSome)

/-- Python truthiness of `odds_map.get(...)`: `None` and the empty dict are
both falsy. -/
def truthyDict (m : Option (List (String × OddsEntry))) : Bool :=
  match m with
  | none => false
  | some l => !l.isEmpty

/-- Python `a or b` over two dict lookups. -/
def pyOr (a b : Option (List (String × OddsEntry))) : Option (List (String × OddsEntry)) :=
  if truthyDict a then a else b

-- =========================================================
-- DISPLAY TEXT (fields kept, emoji / decorative text elided)
-- =========================================================

/-- `format_injury_list` (lines 440-462). -/
def format_injury_list (team_abbr : String) (ctx : InjuryCtx) : String :=
  let out_players := ctx.tier_1_players_out ++ ctx.tier_2_players_out
    ++ ctx.def_tier_1_players_out ++ ctx.def_tier_2_players_out
  let l1 := if out_players.isEmpty then team_abbr ++ " OUT: -"
            else team_abbr ++ " OUT: " ++ String.intercalate ", " out_players
  let l2 := if ctx.questionable_players.isEmpty then team_abbr ++ " GTD: -"
            else team_abbr ++ " GTD: " ++ String.intercalate ", " ctx.questionable_players
  l1 ++ "\n" ++ l2

/-- The per-fixture context assembled before the market loop. -/
structure EvalCtx where
  env : Env
  req : SimulationRequest
  ignore_time_window : Bool
  game_id : String
  home_abbr : String
  away_abbr : String
  adj_a : ℚ
  adj_b : ℚ
  home_ctx : InjuryCtx
  away_ctx : InjuryCtx
  pace_adjust : ℚ
  variance_adjust : ℚ
  def_totals_adjust : ℚ
  def_spread_variance : ℚ
  matchup : List (String × OddsEntry)
  injury_report_text : String
  injury_status_text : String

/-- The spread alert message (display only, decorations elided). -/
def render_spread_message (c : EvalCtx) (tier pick_team bet_side : String)
    (fair_spread home_pct away_pct : ℚ) : String :=
  "FULL GAME SPREAD - " ++ tier ++ "\nPICK: " ++ pick_team ++ " (" ++ bet_side ++ ")\n"
  ++ c.req.team_a ++ " vs " ++ c.req.team_b
  ++ "\nFair Spread: " ++ toString fair_spread
  ++ "\nHome win: " ++ toString home_pct ++ "\nAway win: " ++ toString away_pct
  ++ "\nInjuries Included: " ++ c.injury_status_text
  ++ "\nInjury Report\n" ++ c.injury_report_text

/-- The moneyline alert message (display only). -/
def render_h2h_message (c : EvalCtx) (tier pick_team : String)
    (pick_pct pick_odds : ℚ) : String :=
  "MONEYLINE - " ++ tier ++ "\nPICK: " ++ pick_team ++ "\n"
  ++ c.req.team_a ++ " vs " ++ c.req.team_b
  ++ "\nWin Prob: " ++ toString pick_pct ++ "\nFair Odds: " ++ toString pick_odds
  ++ "\nInjuries Included: " ++ c.injury_status_text
  ++ "\nInjury Report\n" ++ c.injury_report_text

/-- The daily-scan alert message (display only). -/
def render_daily_message (c : EvalCtx) (market : String) (tier : String)
    (market_line fair edge_pct : ℚ) : String :=
  "DAILY EDGE - " ++ tier ++ "\n" ++ market ++ "\n" ++ c.req.team_a ++ " vs " ++ c.req.team_b
  ++ "\nLine: " ++ toString market_line ++ "\nFair: " ++ toString (pyRound 2 fair)
  ++ "\nEdge: " ++ toString edge_pct ++ "\nTier: " ++ tier
  ++ "\nDaily scan only - wait for pregame confirmation."

/-- The totals alert message (display only). -/
def render_totals_message (c : EvalCtx) (market bet_stage bet_side tier signal : String)
    (market_line fair edge_pct pct : ℚ) : String :=
  bet_stage ++ " " ++ market ++ " TOTAL\nPICK: " ++ bet_side ++ "\n"
  ++ c.req.team_a ++ " vs " ++ c.req.team_b
  ++ "\nAway Travel: " ++ toString (pyRound 0 c.req.team_b_travel_km)
  ++ "\nLine: " ++ toString market_line ++ "\nFair: " ++ toString (pyRound 2 fair)
  ++ "\nEdge: " ++ toString edge_pct ++ "\nTier: " ++ tier
  ++ "\nSignal: " ++ signal ++ "\nPercentile: " ++ toString pct
  ++ "\nInjuries Included: " ++ c.injury_status_text
  ++ "\nInjury Report\n" ++ c.injury_report_text

-- =========================================================
-- app.py : MARKET LOOP, ONE STEP PER MARKET KIND
-- =========================================================

/-- The spread-market branch (lines 579-673).  The result record is inserted
before any gate fires, so a gated spread still appears in the results map. -/
def evalSpread (c : EvalCtx) (st : LoopState) : LoopState :=
  let spread_mean := c.adj_a - c.adj_b
  let spread_sd := SPREAD_SD * (1 + c.variance_adjust + c.def_spread_variance)
  let stats := c.env.spread_stats spread_mean spread_sd
  let fair_spread := pyRound 1 (-(stats.margin_mean))
  let home_win_prob := stats.frac_margin_pos
  let away_win_prob := 1 - home_win_prob
  let home_pct := pyRound 1 (home_win_prob * 100)
  let away_pct := pyRound 1 (away_win_prob * 100)
  let st := { st with results :=
    st.results ++ [("spread", MarketResult.spread fair_spread home_pct away_pct)] }
  let win_pct := max home_pct away_pct
  if |fair_spread| < 2 then st
  else
    let tier := win_prob_tier win_pct
    if ¬(tier = "ELITE" ∨ tier = "VERY STRONG") then st
    else if ¬(allow_spread_bet win_pct tier = true) then st
    else
      let bet_side := if home_pct > away_pct then "HOME" else "AWAY"
      let pick_team := if bet_side = "HOME" then c.req.team_a else c.req.team_b
      let key := c.game_id ++ "_spread_" ++ toString fair_spread ++ "_" ++ tier
      let g := emit_guarded st.alerts.sent_alerts key
      if g.1 then
        let message := render_spread_message c tier pick_team bet_side fair_spread home_pct away_pct
        { st with alerts := { st.alerts with sent_alerts := g.2 },
                  msgs := st.msgs ++ [message] }
      else st

/-- The h2h / moneyline branch (lines 678-749).  It reads
`results["spread"]` of the current pass; a missing or non-spread entry would be
a Python `KeyError`, modelled as the error outcome. -/
def evalH2h (c : EvalCtx) (st : LoopState) : Except Unit LoopState :=
  match alookup "spread" st.results with
  | some (MarketResult.spread _ home_pct away_pct) =>
    let home_prob := home_pct / 100
    let away_prob := away_pct / 100
    if home_prob ≤ 0 ∨ away_prob ≤ 0 then Except.ok st
    else
      let fair_home := pyRound 2 (1 / home_prob)
      let fair_away := pyRound 2 (1 / away_prob)
      let st := { st with results :=
        st.results ++ [("h2h", MarketResult.h2h home_pct away_pct fair_home fair_away)] }
      let pick_team := if home_pct > away_pct then c.req.team_a else c.req.team_b
      let pick_pct := max home_pct away_pct
      let pick_odds := if home_pct > away_pct then fair_home else fair_away
      let tier := win_prob_tier pick_pct
      if ¬(allow_h2h_bet pick_pct pick_odds tier = true) then Except.ok st
      else
        let key := c.game_id ++ "_h2h_" ++ toString pick_pct ++ "_" ++ tier
        let g := emit_guarded st.alerts.sent_alerts key
        if g.1 then
          let message := render_h2h_message c tier pick_team pick_pct pick_odds
          Except.ok { st with alerts := { st.alerts with sent_alerts := g.2 },
                              msgs := st.msgs ++ [message] }
        else Except.ok st
  | _ => Except.error ()

/-- The daily-alert block of the totals branch (lines 871-892).  The
`send_telegram_alert(daily_message)` call sits inside the
`SHOW_INJURIES_IN_DAILY` test but outside the dedup test; if `daily_message`
was never assigned in this call the Python code raises `NameError`, modelled
as the error outcome. -/
def dailyBlock (c : EvalCtx) (market tier : String) (market_line fair edge_pct : ℚ)
    (st : LoopState) : Except Unit LoopState :=
  if c.ignore_time_window ∧ (tier = "ELITE" ∨ tier = "VERY STRONG") then
    let daily_key := "DAILY_" ++ c.game_id ++ "_" ++ market ++ "_"
      ++ toString market_line ++ "_" ++ tier
    let g := emit_guarded st.alerts.daily_sent_alerts daily_key
    let st1 := { st with
      alerts := { st.alerts with daily_sent_alerts := g.2 },
      daily_message := if g.1 then some (render_daily_message c market tier market_line fair edge_pct)
                       else st.daily_message }
    if c.env.show_injuries_in_daily then
      match st1.daily_message with
      | none => Except.error ()
      | some dm =>
        let dm2 := dm ++ "\nInjury Report\n" ++ c.injury_report_text
        Except.ok { st1 with daily_message := some dm2, msgs := st1.msgs ++ [dm2] }
    else Except.ok st1
  else Except.ok st

/-- Store the rendered message on a queued pregame alert whose message slot is
still empty (lines 1083-1086). -/
def attach_pregame_message (k msg : String) (st : LoopState) : LoopState :=
  match alookup k st.alerts.pregame_alerts with
  | some pa =>
    if pa.message = none then
      { st with alerts := { st.alerts with
          pregame_alerts := aupdate k { pa with message := some msg } st.alerts.pregame_alerts } }
    else st
  | none => st

/-- The body of one totals-market evaluation once the odds entry is in hand
(lines 770-1093).  The three `continue` gates here are the coin-flip sanity
band, the hard edge floor and the trap block; the result record is inserted
after those gates and before the dedup test, and the send / queue section at
the end of the source is empty. -/
def evalTotalsWithOdds (c : EvalCtx) (market : String) (cfg : MarketCfg)
    (odds : OddsEntry) (st : LoopState) : Except Unit LoopState :=
    let market_line := odds.line
    let market_odds := odds.over_odds
    let mean := (c.adj_a + c.adj_b) * cfg.mean_factor
    let adj_mean := mean + c.pace_adjust * cfg.mean_factor
      + c.def_totals_adjust * cfg.mean_factor
    let adj_sd := cfg.sd * (1 + c.variance_adjust)
    let stats := c.env.totals_stats market adj_mean adj_sd
    let fair := stats.sample_mean
    let raw_over := stats.frac_above_line
    let cal_over := calibrate_prob raw_over
    let over_prob := cal_over
    let under_prob := 1 - cal_over
    if |over_prob - 1/2| < 45/1000 then Except.ok st
    else
      let bet_side := if over_prob > under_prob then "OVER" else "UNDER"
      match implied_prob market_odds with
      | none => Except.error ()
      | some ip =>
        let edge := cap_edge (cal_over - ip)
        let edge_pct_display := pyRound 2 (|edge| * 100)
        if edge_pct_display < 2 then Except.ok st
        else
          let trap_warning := (bet_side = "OVER" ∧ market_line > fair + 1)
            ∨ (bet_side = "UNDER" ∧ market_line < fair - 1)
          let pct := percentile_position stats.frac_below_line
          let tier0 := confidence_tier (confidence_score edge fair market_line pct)
          let signal := lean_signal edge pct
          match dailyBlock c market tier0 market_line fair edge_pct_display st with
          | Except.error e => Except.error e
          | Except.ok st1 =>
            if trap_warning ∧ tier0 ≠ "ELITE" then Except.ok st1
            else
              let tier := def_bump bet_side tier0 c.home_ctx c.away_ctx
              let record := MarketResult.totals market_line (pyRound 2 fair)
                (pyRound 4 edge) pct tier signal
                (pyRound 2 c.pace_adjust) (pyRound 2 c.variance_adjust)
              let st2 := { st1 with results := st1.results ++ [(market, record)] }
              let confirmed := lineups_confirmed c.req.game_time c.env.now
                c.env.injury_map c.home_abbr c.away_abbr
              let bet_stage := if confirmed then "CONFIRMED" else "EARLY"
              let key := c.game_id ++ "_" ++ market ++ "_" ++ toString market_line
                ++ "_" ++ bet_stage ++ "_" ++ injury_signature c.home_ctx c.away_ctx
                ++ "_PREGAME"
              let g := emit_guarded st2.alerts.sent_alerts key
              if ¬(g.1 = true) then Except.ok st2
              else
                let st3 := { st2 with alerts := { st2.alerts with sent_alerts := g.2 } }
                let message := render_totals_message c market bet_stage bet_side tier signal
                  market_line fair edge_pct_display pct
                let pregame_key := c.game_id ++ "_" ++ market ++ "_PREGAME"
                Except.ok (attach_pregame_message pregame_key message st3)

/-- One totals market (game or quarter; lines 753-1093): look up the posted
odds for the market (`continue` when absent) and run the body. -/
def evalTotals (c : EvalCtx) (market : String) (cfg : MarketCfg)
    (st : LoopState) : Except Unit LoopState :=
  match (totals_odds_key market).bind (fun k => alookup k c.matchup) with
  | none => Except.ok st
  | some odds => evalTotalsWithOdds c market cfg odds st

/-- The market loop in `MARKET_CONFIG` insertion order. -/
def runMarketLoop (c : EvalCtx) (st : LoopState) : Except Unit LoopState :=
  match evalTotals c "game" gameCfg st with
  | Except.error e => Except.error e
  | Except.ok s1 =>
    match evalH2h c (evalSpread c s1) with
    | Except.error e => Except.error e
    | Except.ok s3 =>
      match evalTotals c "q1" quarterCfg s3 with
      | Except.error e => Except.error e
      | Except.ok s4 =>
        match evalTotals c "q2" quarterCfg s4 with
        | Except.error e => Except.error e
        | Except.ok s5 =>
          match evalTotals c "q3" quarterCfg s5 with
          | Except.error e => Except.error e
          | Except.ok s6 => evalTotals c "q4" quarterCfg s6

-- =========================================================
-- app.py : run_simulation PREAMBLE AND TOP LEVEL
-- =========================================================

/-- Prequeue of the pregame alert (lines 314-325): inside the 1-15 minute
window an empty slot keyed `f"{game_id}_GAME_PREGAME"` is created. -/
def prequeue_pregame (game_id home_abbr away_abbr : String) (game_time : Option ℚ)
    (minutes_to_tip : ℚ) (st : AlertState) : AlertState :=
  if 1 ≤ minutes_to_tip ∧ minutes_to_tip ≤ 15 then
    let pregame_key := game_id ++ "_GAME_PREGAME"
    let slot : PregameAlert :=
      { game_time := game_time, message := none, home_abbr := home_abbr,
        away_abbr := away_abbr, sent_10 := false, sent_5 := false }
    if (alookup pregame_key st.pregame_alerts).isSome then st
    else { st with pregame_alerts := st.pregame_alerts ++ [(pregame_key, slot)] }
  else st

/-- Outcome of the part of `run_simulation` before the market loop. -/
inductive BuildResult where
  | invalid (st : AlertState)
  | empty (game_id : String) (st : AlertState)
  | proceed (c : EvalCtx) (st : AlertState)

/-- Lines 272-567 of `run_simulation`: alert-day reset, team resolution, game
time check, pregame prequeue, decision-window gate, odds lookup, core-market
check, situational adjustments and injury context assembly. -/
def buildEvalCtx (env : Env) (req : SimulationRequest) (ignore_time_window : Bool)
    (st0 : AlertState) : BuildResult :=
  let st := reset_alerts_if_new_day env.today st0
  match team_name_to_abbr req.team_a, team_name_to_abbr req.team_b with
  | some home_abbr, some away_abbr =>
    let game_id := home_abbr ++ "_vs_" ++ away_abbr
    match req.game_time with
    | none => BuildResult.empty game_id st
    | some game_time =>
      let minutes_to_tip := game_time - env.now
      let st := prequeue_pregame game_id home_abbr away_abbr req.game_time minutes_to_tip st
      if ¬ignore_time_window ∧
          ¬((15 ≤ minutes_to_tip ∧ minutes_to_tip ≤ 30)
            ∨ (9 ≤ minutes_to_tip ∧ minutes_to_tip ≤ 11)
            ∨ (1 ≤ minutes_to_tip ∧ minutes_to_tip ≤ 3)
            ∨ (-2 ≤ minutes_to_tip ∧ minutes_to_tip ≤ 0)) then
        BuildResult.empty game_id st
      else
        let matchup_opt := pyOr (alookup (home_abbr, away_abbr) env.odds_map)
          (alookup (away_abbr, home_abbr) env.odds_map)
        if ¬(truthyDict matchup_opt = true) then BuildResult.empty game_id st
        else
          let matchup := matchup_opt.getD []
          if ¬(has_core_market matchup = true) then BuildResult.invalid st
          else
            let p := adjust_points req home_abbr
            let home_ctx := (alookup home_abbr env.injury_map).getD {}
            let away_ctx := (alookup away_abbr env.injury_map).getD {}
            let injury_report_text := format_injury_list home_abbr home_ctx ++ "\n"
              ++ format_injury_list away_abbr away_ctx
            let injury_status_text :=
              if lineups_confirmed req.game_time env.now env.injury_map home_abbr away_abbr
              then "CONFIRMED" else "PENDING (GTD)"
            BuildResult.proceed
              { env := env, req := req, ignore_time_window := ignore_time_window,
                game_id := game_id, home_abbr := home_abbr, away_abbr := away_abbr,
                adj_a := p.1, adj_b := p.2,
                home_ctx := home_ctx, away_ctx := away_ctx,
                pace_adjust := pace_adjust_of home_ctx away_ctx,
                variance_adjust := variance_adjust_of home_ctx away_ctx,
                def_totals_adjust := def_totals_adjust_of home_ctx away_ctx,
                def_spread_variance := def_spread_variance_of home_ctx away_ctx,
                matchup := matchup,
                injury_report_text := injury_report_text,
                injury_status_text := injury_status_text } st
  | _, _ => BuildResult.invalid st
  
/-- `run_simulation(req, ignore_time_window)`: returns the `RunResult`, the
updated process-wide alert state and the list of telegram messages sent during
the call; the error outcome models an uncaught Python exception. -/
def run_simulation (env : Env) (req : SimulationRequest) (ignore_time_window : Bool)
    (st0 : AlertState) : Except Unit (RunResult × AlertState × List String) :=
  match buildEvalCtx env req ignore_time_window st0 with
  | BuildResult.invalid st => Except.ok (RunResult.invalid, st, [])
  | BuildResult.empty game_id st => Except.ok (RunResult.ok game_id [], st, [])
  | BuildResult.proceed c st =>
    match runMarketLoop c { results := [], alerts := st, msgs := [], daily_message := none } with
    | Except.error e => Except.error e
    | Except.ok out => Except.ok (RunResult.ok c.game_id out.results, out.alerts, out.msgs)

/-- The markets map of a completed evaluation (`none` when the run raised or
returned Python `None`). -/
def runMarkets (x : Except Unit (RunResult × AlertState × List String)) :
    Option (List (String × MarketResult)) :=
  match x with
  | Except.ok (RunResult.ok _ ms, _, _) => some ms
  | _ => none

/-- The per-market lookup into the results map of an evaluation; `none` both
when the market is absent and when there is no results map at all. -/
def runMarketEntry (x : Except Unit (RunResult × AlertState × List String))
    (market : String) : Option MarketResult :=
  match runMarkets x with
  | some ms => alookup market ms
  | none => none

/-- The final alert state of a completed evaluation. -/
def runAlertState (x : Except Unit (RunResult × AlertState × List String)) :
    Option AlertState :=
  match x with
  | Except.ok (_, st, _) => some st
  | _ => none

/-- The telegram messages sent during a completed evaluation. -/
def runMsgs (x : Except Unit (RunResult × AlertState × List String)) :
    Option (List String) :=
  match x with
  | Except.ok (_, _, msgs) => some msgs
  | _ => none

-- =========================================================
-- THE TOTALS DECISION-POLICY GATES AS A PREDICATE
-- =========================================================

/-- True when one of the totals decision-policy gates of §4.5 fires for a
posted odds entry: the coin-flip sanity band, the hard edge floor, or the trap
block (for a non-ELITE tier).  The intermediate values repeat, definitionally,
the ones `evalTotalsWithOdds` computes. -/
def totalsGateFailingWithOdds (c : EvalCtx) (market : String) (cfg : MarketCfg)
    (odds : OddsEntry) : Bool :=
    let market_line := odds.line
    let mean := (c.adj_a + c.adj_b) * cfg.mean_factor
    let adj_mean := mean + c.pace_adjust * cfg.mean_factor
      + c.def_totals_adjust * cfg.mean_factor
    let adj_sd := cfg.sd * (1 + c.variance_adjust)
    let stats := c.env.totals_stats market adj_mean adj_sd
    let fair := stats.sample_mean
    let cal_over := calibrate_prob stats.frac_above_line
    let over_prob := cal_over
    let under_prob := 1 - cal_over
    if |over_prob - 1/2| < 45/1000 then true
    else
      let bet_side := if over_prob > under_prob then "OVER" else "UNDER"
      let edge := cap_edge (cal_over - 1 / odds.over_odds)
      let edge_pct_display := pyRound 2 (|edge| * 100)
      if edge_pct_display < 2 then true
      else
        let trap_warning := (bet_side = "OVER" ∧ market_line > fair + 1)
          ∨ (bet_side = "UNDER" ∧ market_line < fair - 1)
        let pct := percentile_position stats.frac_below_line
        let tier0 := confidence_tier (confidence_score edge fair market_line pct)
        decide (trap_warning ∧ tier0 ≠ "ELITE")

/-- Gate-failure predicate for a totals market of a fixture context: false when
the market has no posted odds (that is the availability gate, which the claim
does not list), otherwise `totalsGateFailingWithOdds`. -/
def totalsGateFailing (c : EvalCtx) (market : String) (cfg : MarketCfg) : Bool :=
  match (totals_odds_key market).bind (fun k => alookup k c.matchup) with
  | none => false
  | some odds => totalsGateFailingWithOdds c market cfg odds

-- =========================================================
-- DEDUP TRACE MODEL (alert-epoch semantics of SENT_ALERTS)
-- =========================================================

/-- One observable alert-state event: a market evaluation reaching the guarded
emission for a fingerprint, or the day-boundary reset. -/
inductive AlertOp where
  | eval (key : String)
  | reset
deriving DecidableEq

/-- Number of guarded emissions of fingerprint `k` along a trace of
evaluations and day-boundary resets, starting from emitted-set `sent`;
each evaluation runs `emit_guarded` exactly as the alert sites do, each reset
clears the set exactly as `reset_alerts_if_new_day` does. -/
def countEmits (k : String) : List String → List AlertOp → ℕ
  | _, [] => 0
  | sent, AlertOp.eval key :: rest =>
    let g := emit_guarded sent key
    (if g.1 ∧ key = k then 1 else 0) + countEmits k g.2 rest
  | _, AlertOp.reset :: rest => countEmits k [] rest

-- =========================================================
-- CONCRETE SCENARIOS (used by witnesses and counterexamples)
-- =========================================================

/-- Fresh process-wide alert state on day 0. -/
def st0 : AlertState := {}

/-- Boston Celtics vs Miami Heat, tip in 10 minutes (inside the 9-11 minute
decision window and the 1-15 minute prequeue window). -/
def req0 : SimulationRequest :=
  { team_a := "Boston Celtics", team_b := "Miami Heat", game_time := some 10 }

/-- Scenario used against C1 and C3: the full-game total lands exactly on the
coin flip (raw over probability 0.5), while the spread draw has mean margin -3
and home win fraction 0.58. -/
def env0 : Env :=
  { now := 0, today := 0,
    odds_map := [(("BOS", "MIA"),
      [("totals", { line := 449/2, over_odds := 19/10, under_odds := 19/10 })])],
    injury_map := [],
    spread_stats := fun _ _ => { margin_mean := -3, frac_margin_pos := 29/50 },
    totals_stats := fun _ _ _ =>
      { sample_mean := 230, frac_above_line := 1/2, frac_below_line := 1/2 } }

/-- Scenario used against C7: both names resolve and the odds feed has a
nonempty matchup entry, but the only posted market is the non-core `h2h`. -/
def req1 : SimulationRequest :=
  { team_a := "Boston Celtics", team_b := "Miami Heat", game_time := some 1000 }

def env1 : Env :=
  { now := 0, today := 0,
    odds_map := [(("BOS", "MIA"),
      [("h2h", { line := 0, over_odds := 19/10, under_odds := 19/10 })])],
    injury_map := [],
    spread_stats := fun _ _ => { margin_mean := -3, frac_margin_pos := 29/50 },
    totals_stats := fun _ _ _ =>
      { sample_mean := 230, frac_above_line := 1/2, frac_below_line := 1/2 } }

/-- Scenario used against C2: the full-game total passes every gate (raw over
probability 0.70 against over odds 1.90 at line 224.5, fair 230, tier ELITE)
while spread and h2h are gated; tip is 10 minutes out, so the pregame slot
`BOS_vs_MIA_GAME_PREGAME` is prequeued during the same call. -/
def env2 : Env :=
  { now := 0, today := 0,
    odds_map := [(("BOS", "MIA"),
      [("totals", { line := 449/2, over_odds := 19/10, under_odds := 19/10 })])],
    injury_map := [],
    spread_stats := fun _ _ => { margin_mean := 0, frac_margin_pos := 1/2 },
    totals_stats := fun _ _ _ =>
      { sample_mean := 230, frac_above_line := 7/10, frac_below_line := 3/10 } }

/-- The computed results map of the `env0` evaluation. -/
def markets0 : List (String × MarketResult) :=
  [("spread", MarketResult.spread 3 58 42),
   ("h2h", MarketResult.h2h 58 42 (43/25) (119/50))]

/-- The spread result record as a function of the fixture context (the same
values `evalSpread` stores into `results["spread"]`). -/
def spread_record_of (c : EvalCtx) : MarketResult :=
  let spread_mean := c.adj_a - c.adj_b
  let spread_sd := SPREAD_SD * (1 + c.variance_adjust + c.def_spread_variance)
  let stats := c.env.spread_stats spread_mean spread_sd
  MarketResult.spread (pyRound 1 (-(stats.margin_mean)))
    (pyRound 1 (stats.frac_margin_pos * 100))
    (pyRound 1 ((1 - stats.frac_margin_pos) * 100))

/-- Whether, for the evaluation determined by `(env, req, ignore_time_window,
st0)`, one of the §4.5 totals gates fires for `market` (false when the run
never reaches the market loop). -/
def runGateFailing (env : Env) (req : SimulationRequest) (itw : Bool)
    (st0 : AlertState) (market : String) : Bool :=
  match buildEvalCtx env req itw st0 with
  | BuildResult.proceed c _ => totalsGateFailing c market (cfgOfMarket market)
  | _ => false

/-- Boston Celtics (team A) at Denver Nuggets with the home designation on
team B: the fixture whose home side plays at altitude. -/
def req5 : SimulationRequest :=
  { team_a := "Boston Celtics", team_b := "Denver Nuggets",
    game_time := some 10, home_team := "B" }

-- =========================================================
-- SUPPORTING LEMMAS
-- =========================================================

theorem alookup_append_of_none {α β : Type} [DecidableEq α] (k : α)
    (l1 l2 : List (α × β)) (h : alookup k l1 = none) :
    alookup k (l1 ++ l2) = alookup k l2 := by
  induction l1 with
  | nil => simp
  | cons p rest ih =>
    obtain ⟨k2, v⟩ := p
    by_cases hk : k2 = k
    · rw [alookup, if_pos hk] at h
      exact absurd h (by simp)
    · rw [List.cons_append, alookup, if_neg hk]
      rw [alookup, if_neg hk] at h
      exact ih h

theorem alookup_append_single_ne {α β : Type} [DecidableEq α] (k m : α) (r : β)
    (l : List (α × β)) (h : ¬(m = k)) :
    alookup k (l ++ [(m, r)]) = alookup k l := by
  induction l with
  | nil => simp [alookup, h]
  | cons p rest ih =>
    obtain ⟨k2, v⟩ := p
    by_cases hk : k2 = k
    · simp [alookup, hk]
    · simp only [List.cons_append, alookup, hk, if_false]
      exact ih

theorem alookup_append_single_self {α β : Type} [DecidableEq α] (k : α) (r : β)
    (l : List (α × β)) (h : alookup k l = none) :
    alookup k (l ++ [(k, r)]) = some r := by
  rw [alookup_append_of_none k l _ h]
  simp [alookup]

theorem dailyBlock_results (c : EvalCtx) (market tier : String)
    (market_line fair edge_pct : ℚ) (st st1 : LoopState)
    (h : dailyBlock c market tier market_line fair edge_pct st = Except.ok st1) :
    st1.results = st.results := by
  simp only [dailyBlock] at h
  split at h
  · split at h
    · split at h
      · exact absurd h (by simp)
      · simp only [Except.ok.injEq] at h
        subst h
        rfl
    · simp only [Except.ok.injEq] at h
      subst h
      rfl
  · simp only [Except.ok.injEq] at h
    subst h
    rfl

theorem attach_results (k msg : String) (st : LoopState) :
    (attach_pregame_message k msg st).results = st.results := by
  unfold attach_pregame_message
  split
  · split
    · rfl
    · rfl
  · rfl

theorem evalTotals_results (c : EvalCtx) (market : String) (cfg : MarketCfg)
    (st st2 : LoopState) (h : evalTotals c market cfg st = Except.ok st2) :
    st2.results = st.results ∨
      ∃ r, st2.results = st.results ++ [(market, r)] := by
  simp only [evalTotals] at h
  split at h
  · simp only [Except.ok.injEq] at h
    subst h
    exact Or.inl rfl
  · simp only [evalTotalsWithOdds] at h
    split at h
    · simp only [Except.ok.injEq] at h
      subst h
      exact Or.inl rfl
    · split at h
      · exact absurd h (by simp)
      · split at h
        · simp only [Except.ok.injEq] at h
          subst h
          exact Or.inl rfl
        · split at h
          · exact absurd h (by simp)
          · rename_i st1 hdb
            have hdbr := dailyBlock_results _ _ _ _ _ _ _ _ hdb
            iterate 6 (all_goals (try split at h))
            all_goals simp only [Except.ok.injEq] at h
            all_goals subst h
            all_goals try rw [attach_results]
            all_goals first
              | exact Or.inl hdbr
              | exact Or.inr ⟨_, by rw [← hdbr]⟩

theorem evalTotalsWithOdds_gate_skip (c : EvalCtx) (market : String) (cfg : MarketCfg)
    (odds : OddsEntry) (st st2 : LoopState)
    (hg : totalsGateFailingWithOdds c market cfg odds = true)
    (h : evalTotalsWithOdds c market cfg odds st = Except.ok st2) :
    st2.results = st.results := by
  simp only [totalsGateFailingWithOdds] at hg
  simp only [evalTotalsWithOdds] at h
  split at h
  · simp only [Except.ok.injEq] at h
    subst h
    rfl
  · rename_i hcoin
    rw [if_neg hcoin] at hg
    split at h
    · exact absurd h (by simp)
    · rename_i ip hip
      have hip2 : ip = 1 / odds.over_odds := by
        simp only [implied_prob] at hip
        split at hip
        · exact absurd hip (by simp)
        · simp only [Option.some.injEq] at hip
          exact hip.symm
      subst hip2
      split at h
      · simp only [Except.ok.injEq] at h
        subst h
        rfl
      · rename_i hedge
        rw [if_neg hedge] at hg
        split at h
        · exact absurd h (by simp)
        · rename_i st1 hdb
          have hdbr := dailyBlock_results _ _ _ _ _ _ _ _ hdb
          split at h
          · rename_i hbs
            rw [if_pos hbs] at hg
            have htrap := of_decide_eq_true hg
            split at h
            · simp only [Except.ok.injEq] at h
              subst h
              exact hdbr
            · rename_i hcon
              exact absurd htrap hcon
          · rename_i hbs
            rw [if_neg hbs] at hg
            have htrap := of_decide_eq_true hg
            split at h
            · simp only [Except.ok.injEq] at h
              subst h
              exact hdbr
            · rename_i hcon
              exact absurd htrap hcon

theorem evalTotals_gate_skip (c : EvalCtx) (market : String) (cfg : MarketCfg)
    (st st2 : LoopState) (hg : totalsGateFailing c market cfg = true)
    (h : evalTotals c market cfg st = Except.ok st2) :
    st2.results = st.results := by
  unfold totalsGateFailing at hg
  unfold evalTotals at h
  split at hg
  · exact absurd hg (by simp)
  · rename_i odds hodds
    rw [hodds] at h
    exact evalTotalsWithOdds_gate_skip _ _ _ _ _ _ hg h

theorem evalSpread_results (c : EvalCtx) (st : LoopState) :
    (evalSpread c st).results
      = st.results ++ [("spread", spread_record_of c)] := by
  simp only [evalSpread, spread_record_of]
  iterate 5 (all_goals (try split))
  all_goals rfl

theorem evalH2h_results (c : EvalCtx) (st st2 : LoopState)
    (h : evalH2h c st = Except.ok st2) :
    st2.results = st.results ∨
      ∃ fs hp ap fh fa,
        alookup "spread" st.results = some (MarketResult.spread fs hp ap)
        ∧ st2.results = st.results ++ [("h2h", MarketResult.h2h hp ap fh fa)] := by
  simp only [evalH2h] at h
  split at h
  · rename_i fs0 hp0 ap0 hsp
    split at h
    · simp only [Except.ok.injEq] at h
      subst h
      exact Or.inl rfl
    · iterate 3 (all_goals (try split at h))
      all_goals simp only [Except.ok.injEq] at h
      all_goals subst h
      all_goals exact Or.inr ⟨_, _, _, _, _, hsp, rfl⟩
  · exact absurd h (by simp)

theorem evalTotals_lookup_ne (c : EvalCtx) (market : String) (cfg : MarketCfg)
    (st st2 : LoopState) (h : evalTotals c market cfg st = Except.ok st2)
    (k : String) (hk : ¬(market = k)) :
    alookup k st2.results = alookup k st.results := by
  rcases evalTotals_results _ _ _ _ _ h with heq | ⟨r, heq⟩
  · rw [heq]
  · rw [heq, alookup_append_single_ne _ _ _ _ hk]

theorem evalSpread_lookup_ne (c : EvalCtx) (st : LoopState)
    (k : String) (hk : ¬("spread" = k)) :
    alookup k (evalSpread c st).results = alookup k st.results := by
  rw [evalSpread_results, alookup_append_single_ne _ _ _ _ hk]

theorem evalH2h_lookup_ne (c : EvalCtx) (st st2 : LoopState)
    (h : evalH2h c st = Except.ok st2) (k : String) (hk : ¬("h2h" = k)) :
    alookup k st2.results = alookup k st.results := by
  rcases evalH2h_results _ _ _ h with heq | ⟨fs, hp, ap, fh, fa, _, heq⟩
  · rw [heq]
  · rw [heq, alookup_append_single_ne _ _ _ _ hk]

theorem sublist_pad {l L : List String} (m : String) (h : List.Sublist l L) :
    List.Sublist l (L ++ [m]) :=
  List.Sublist.trans h (List.sublist_append_left L [m])

theorem sublist_push {l L : List String} (m : String) (h : List.Sublist l L) :
    List.Sublist (l ++ [m]) (L ++ [m]) :=
  List.Sublist.append h (List.Sublist.refl [m])

theorem runMarketLoop_h2h_copies_spread (c : EvalCtx) (st out : LoopState)
    (h : runMarketLoop c st = Except.ok out)
    (hsp0 : alookup "spread" st.results = none)
    (hh0 : alookup "h2h" st.results = none)
    (hp ap fh fa : ℚ)
    (hh : alookup "h2h" out.results = some (MarketResult.h2h hp ap fh fa)) :
    ∃ fs, alookup "spread" out.results = some (MarketResult.spread fs hp ap) := by
  simp only [runMarketLoop] at h
  split at h
  · exact absurd h (by simp)
  · rename_i s1 heq1
    split at h
    · exact absurd h (by simp)
    · rename_i s3 heq3
      split at h
      · exact absurd h (by simp)
      · rename_i s4 heq4
        split at h
        · exact absurd h (by simp)
        · rename_i s5 heq5
          split at h
          · exact absurd h (by simp)
          · rename_i s6 heq6
            -- h : evalTotals c "q4" quarterCfg s6 = Except.ok out
            have hsp1 : alookup "spread" s1.results = none := by
              rw [evalTotals_lookup_ne _ _ _ _ _ heq1 _ (by decide)]
              exact hsp0
            have hh1 : alookup "h2h" s1.results = none := by
              rw [evalTotals_lookup_ne _ _ _ _ _ heq1 _ (by decide)]
              exact hh0
            have hsp2 : alookup "spread" (evalSpread c s1).results
                = some (spread_record_of c) := by
              rw [evalSpread_results]
              exact alookup_append_single_self _ _ _ hsp1
            have hh2 : alookup "h2h" (evalSpread c s1).results = none := by
              rw [evalSpread_lookup_ne _ _ _ (by decide)]
              exact hh1
            have hh_out_3 : alookup "h2h" out.results = alookup "h2h" s3.results := by
              rw [evalTotals_lookup_ne _ _ _ _ _ h _ (by decide),
                  evalTotals_lookup_ne _ _ _ _ _ heq6 _ (by decide),
                  evalTotals_lookup_ne _ _ _ _ _ heq5 _ (by decide),
                  evalTotals_lookup_ne _ _ _ _ _ heq4 _ (by decide)]
            have hsp_out_3 : alookup "spread" out.results = alookup "spread" s3.results := by
              rw [evalTotals_lookup_ne _ _ _ _ _ h _ (by decide),
                  evalTotals_lookup_ne _ _ _ _ _ heq6 _ (by decide),
                  evalTotals_lookup_ne _ _ _ _ _ heq5 _ (by decide),
                  evalTotals_lookup_ne _ _ _ _ _ heq4 _ (by decide)]
            rcases evalH2h_results _ _ _ heq3 with heq | ⟨fs, hp0, ap0, fh0, fa0, hspl, heqr⟩
            · rw [hh_out_3, heq, hh2] at hh
              exact absurd hh (by simp)
            · rw [hh_out_3, heqr, alookup_append_single_self _ _ _ hh2] at hh
              simp only [Option.some.injEq, MarketResult.h2h.injEq] at hh
              obtain ⟨e1, e2, _, _⟩ := hh
              subst e1
              subst e2
              refine ⟨fs, ?_⟩
              rw [hsp_out_3, heqr, alookup_append_single_ne _ _ _ _ (by decide)]
              exact hspl

theorem evalTotals_keys (c : EvalCtx) (market : String) (cfg : MarketCfg)
    (st st2 : LoopState) (h : evalTotals c market cfg st = Except.ok st2) :
    st2.results.map Prod.fst = st.results.map Prod.fst ∨
      st2.results.map Prod.fst = st.results.map Prod.fst ++ [market] := by
  rcases evalTotals_results _ _ _ _ _ h with heq | ⟨r, heq⟩
  · rw [heq]
    exact Or.inl rfl
  · rw [heq, List.map_append]
    exact Or.inr rfl

theorem evalSpread_keys (c : EvalCtx) (st : LoopState) :
    (evalSpread c st).results.map Prod.fst = st.results.map Prod.fst ++ ["spread"] := by
  rw [evalSpread_results, List.map_append]
  rfl

theorem evalH2h_keys (c : EvalCtx) (st st2 : LoopState)
    (h : evalH2h c st = Except.ok st2) :
    st2.results.map Prod.fst = st.results.map Prod.fst ∨
      st2.results.map Prod.fst = st.results.map Prod.fst ++ ["h2h"] := by
  rcases evalH2h_results _ _ _ h with heq | ⟨fs, hp, ap, fh, fa, _, heq⟩
  · rw [heq]
    exact Or.inl rfl
  · rw [heq, List.map_append]
    exact Or.inr rfl

theorem runMarketLoop_keys_sublist (c : EvalCtx) (st out : LoopState)
    (h : runMarketLoop c st = Except.ok out) (hst : st.results = []) :
    List.Sublist (out.results.map Prod.fst) MARKET_ORDER := by
  simp only [runMarketLoop] at h
  split at h
  · exact absurd h (by simp)
  · rename_i s1 heq1
    split at h
    · exact absurd h (by simp)
    · rename_i s3 heq3
      split at h
      · exact absurd h (by simp)
      · rename_i s4 heq4
        split at h
        · exact absurd h (by simp)
        · rename_i s5 heq5
          split at h
          · exact absurd h (by simp)
          · rename_i s6 heq6
            have k0 : List.Sublist (st.results.map Prod.fst) ([] : List String) := by
              rw [hst]
              exact List.Sublist.refl _
            have k1 : List.Sublist (s1.results.map Prod.fst) ["game"] := by
              rcases evalTotals_keys _ _ _ _ _ heq1 with e | e
              · rw [e]
                exact sublist_pad _ k0
              · rw [e]
                exact sublist_push _ k0
            have k2 : List.Sublist ((evalSpread c s1).results.map Prod.fst)
                ["game", "spread"] := by
              rw [evalSpread_keys]
              exact sublist_push _ k1
            have k3 : List.Sublist (s3.results.map Prod.fst) ["game", "spread", "h2h"] := by
              rcases evalH2h_keys _ _ _ heq3 with e | e
              · rw [e]
                exact sublist_pad _ k2
              · rw [e]
                exact sublist_push _ k2
            have k4 : List.Sublist (s4.results.map Prod.fst)
                ["game", "spread", "h2h", "q1"] := by
              rcases evalTotals_keys _ _ _ _ _ heq4 with e | e
              · rw [e]
                exact sublist_pad _ k3
              · rw [e]
                exact sublist_push _ k3
            have k5 : List.Sublist (s5.results.map Prod.fst)
                ["game", "spread", "h2h", "q1", "q2"] := by
              rcases evalTotals_keys _ _ _ _ _ heq5 with e | e
              · rw [e]
                exact sublist_pad _ k4
              · rw [e]
                exact sublist_push _ k4
            have k6 : List.Sublist (s6.results.map Prod.fst)
                ["game", "spread", "h2h", "q1", "q2", "q3"] := by
              rcases evalTotals_keys _ _ _ _ _ heq6 with e | e
              · rw [e]
                exact sublist_pad _ k5
              · rw [e]
                exact sublist_push _ k5
            rcases evalTotals_keys _ _ _ _ _ h with e | e
            · rw [e]
              exact sublist_pad _ k6
            · rw [e]
              exact sublist_push _ k6

theorem runMarketLoop_gate_absent (c : EvalCtx) (st out : LoopState) (m : String)
    (h : runMarketLoop c st = Except.ok out)
    (hm : m = "game" ∨ m = "q1" ∨ m = "q2" ∨ m = "q3" ∨ m = "q4")
    (hg : totalsGateFailing c m (cfgOfMarket m) = true)
    (h0 : alookup m st.results = none) :
    alookup m out.results = none := by
  simp only [runMarketLoop] at h
  split at h
  · exact absurd h (by simp)
  · rename_i s1 heq1
    split at h
    · exact absurd h (by simp)
    · rename_i s3 heq3
      split at h
      · exact absurd h (by simp)
      · rename_i s4 heq4
        split at h
        · exact absurd h (by simp)
        · rename_i s5 heq5
          split at h
          · exact absurd h (by simp)
          · rename_i s6 heq6
            rcases hm with rfl | rfl | rfl | rfl | rfl
            · simp only [cfgOfMarket, if_pos rfl] at hg
              have e1 : s1.results = st.results :=
                evalTotals_gate_skip _ _ _ _ _ hg heq1
              rw [evalTotals_lookup_ne _ _ _ _ _ h _ (by decide),
                  evalTotals_lookup_ne _ _ _ _ _ heq6 _ (by decide),
                  evalTotals_lookup_ne _ _ _ _ _ heq5 _ (by decide),
                  evalTotals_lookup_ne _ _ _ _ _ heq4 _ (by decide),
                  evalH2h_lookup_ne _ _ _ heq3 _ (by decide),
                  evalSpread_lookup_ne _ _ _ (by decide), e1]
              exact h0
            · simp only [cfgOfMarket] at hg
              rw [if_neg (by decide)] at hg
              have e4 : s4.results = s3.results :=
                evalTotals_gate_skip _ _ _ _ _ hg heq4
              rw [evalTotals_lookup_ne _ _ _ _ _ h _ (by decide),
                  evalTotals_lookup_ne _ _ _ _ _ heq6 _ (by decide),
                  evalTotals_lookup_ne _ _ _ _ _ heq5 _ (by decide),
                  e4,
                  evalH2h_lookup_ne _ _ _ heq3 _ (by decide),
                  evalSpread_lookup_ne _ _ _ (by decide),
                  evalTotals_lookup_ne _ _ _ _ _ heq1 _ (by decide)]
              exact h0
            · simp only [cfgOfMarket] at hg
              rw [if_neg (by decide)] at hg
              have e5 : s5.results = s4.results :=
                evalTotals_gate_skip _ _ _ _ _ hg heq5
              rw [evalTotals_lookup_ne _ _ _ _ _ h _ (by decide),
                  evalTotals_lookup_ne _ _ _ _ _ heq6 _ (by decide),
                  e5,
                  evalTotals_lookup_ne _ _ _ _ _ heq4 _ (by decide),
                  evalH2h_lookup_ne _ _ _ heq3 _ (by decide),
                  evalSpread_lookup_ne _ _ _ (by decide),
                  evalTotals_lookup_ne _ _ _ _ _ heq1 _ (by decide)]
              exact h0
            · simp only [cfgOfMarket] at hg
              rw [if_neg (by decide)] at hg
              have e6 : s6.results = s5.results :=
                evalTotals_gate_skip _ _ _ _ _ hg heq6
              rw [evalTotals_lookup_ne _ _ _ _ _ h _ (by decide),
                  e6,
                  evalTotals_lookup_ne _ _ _ _ _ heq5 _ (by decide),
                  evalTotals_lookup_ne _ _ _ _ _ heq4 _ (by decide),
                  evalH2h_lookup_ne _ _ _ heq3 _ (by decide),
                  evalSpread_lookup_ne _ _ _ (by decide),
                  evalTotals_lookup_ne _ _ _ _ _ heq1 _ (by decide)]
              exact h0
            · simp only [cfgOfMarket] at hg
              rw [if_neg (by decide)] at hg
              have e7 : out.results = s6.results :=
                evalTotals_gate_skip _ _ _ _ _ hg h
              rw [e7,
                  evalTotals_lookup_ne _ _ _ _ _ heq6 _ (by decide),
                  evalTotals_lookup_ne _ _ _ _ _ heq5 _ (by decide),
                  evalTotals_lookup_ne _ _ _ _ _ heq4 _ (by decide),
                  evalH2h_lookup_ne _ _ _ heq3 _ (by decide),
                  evalSpread_lookup_ne _ _ _ (by decide),
                  evalTotals_lookup_ne _ _ _ _ _ heq1 _ (by decide)]
              exact h0

theorem ratFloor_eq_floor (x : ℚ) : ratFloor x = ⌊x⌋ := (Rat.floor_def).symm

theorem pyInt_mono_nonneg (x y : ℚ) (hx : 0 ≤ x) (h : x ≤ y) :
    pyInt x ≤ pyInt y := by
  unfold pyInt
  rw [if_pos hx, if_pos (le_trans hx h), ratFloor_eq_floor, ratFloor_eq_floor]
  exact Int.floor_le_floor h

theorem confidence_score_mono (e1 e2 fair line pct : ℚ) (h : |e1| ≤ |e2|) :
    confidence_score e1 fair line pct ≤ confidence_score e2 fair line pct := by
  unfold confidence_score
  have hle : |e1| * 400 + |fair - line| * 3 + |50 - pct|
      ≤ |e2| * 400 + |fair - line| * 3 + |50 - pct| := by nlinarith
  have h0 : (0:ℚ) ≤ min (|e1| * 400 + |fair - line| * 3 + |50 - pct|) 100 :=
    le_min (by positivity) (by norm_num)
  exact pyInt_mono_nonneg _ _ h0 (min_le_min hle le_rfl)

theorem confidence_tier_rank_mono (s1 s2 : ℤ) (h : s1 ≤ s2) :
    tierRank (confidence_tier s1) ≤ tierRank (confidence_tier s2) := by
  unfold confidence_tier
  split_ifs <;> simp [tierRank] <;> omega

/-- C8: for fixed fair value, line and percentile, a larger absolute edge never
produces a lower-ranked confidence tier (NOISE < LEAN < STRONG < VERY STRONG <
ELITE). -/
theorem confidence_tier_monotone_in_edge (e1 e2 fair line pct : ℚ)
    (h : |e1| ≤ |e2|) :
    tierRank (confidence_tier (confidence_score e1 fair line pct))
      ≤ tierRank (confidence_tier (confidence_score e2 fair line pct)) :=
  confidence_tier_rank_mono _ _ (confidence_score_mono e1 e2 fair line pct h)

theorem confidence_tier_monotone_in_edge_witness :
    |(1:ℚ)/100| ≤ |(9:ℚ)/100|
    ∧ tierRank (confidence_tier (confidence_score (1/100) 230 (449/2) 30))
      ≤ tierRank (confidence_tier (confidence_score (9/100) 230 (449/2) 30)) :=
  ⟨by decide, confidence_tier_monotone_in_edge (1/100) (9/100) 230 (449/2) 30 (by decide)⟩

/-- C9: with the default strength 0.65, `calibrate_prob p` lies strictly
between `p` and 0.5 for every raw probability `p` in the unit interval other
than 0.5, and `calibrate_prob (1/2) = 1/2`. -/
theorem calibrate_prob_shrinks (p : ℚ) (h0 : 0 ≤ p) (h1 : p ≤ 1) (hne : p ≠ 1/2) :
    (min p (1/2) < calibrate_prob p ∧ calibrate_prob p < max p (1/2))
    ∧ calibrate_prob (1/2) = 1/2 := by
  refine ⟨?_, by unfold calibrate_prob; ring⟩
  rcases lt_or_gt_of_ne hne with hlt | hgt
  · rw [min_eq_left (le_of_lt hlt), max_eq_right (le_of_lt hlt)]
    unfold calibrate_prob
    constructor <;> linarith
  · rw [min_eq_right (le_of_lt hgt), max_eq_left (le_of_lt hgt)]
    unfold calibrate_prob
    constructor <;> linarith

theorem calibrate_prob_shrinks_witness :
    (0:ℚ) ≤ 9/10 ∧ (9:ℚ)/10 ≤ 1 ∧ (9:ℚ)/10 ≠ 1/2
    ∧ ((min (9/10 : ℚ) (1/2) < calibrate_prob (9/10)
        ∧ calibrate_prob (9/10) < max (9/10 : ℚ) (1/2))
       ∧ calibrate_prob (1/2) = 1/2) :=
  ⟨by norm_num, by norm_num, by norm_num,
    calibrate_prob_shrinks (9/10) (by norm_num) (by norm_num) (by norm_num)⟩

/-- C10 counterexample: `implied_prob` does not fail for every `odds ≤ 0`; at
`odds = -2` the Python code returns `1 / -2 = -0.5` without raising. -/
theorem implied_prob_defined_on_negative_odds :
    ((-2 : ℚ) ≤ 0 ∧ (-2 : ℚ) ≠ 0) ∧ implied_prob (-2) = some (-(1/2)) := by
  refine ⟨⟨by norm_num, by norm_num⟩, ?_⟩
  unfold implied_prob
  rw [if_neg (by norm_num)]
  norm_num

/-- C10 amended: `implied_prob odds` returns `1 / odds` for every nonzero
decimal odds, positive or negative, and fails (ZeroDivisionError) exactly when
`odds = 0`. -/
theorem implied_prob_spec (odds : ℚ) (h : odds ≠ 0) :
    implied_prob odds = some (1 / odds) ∧ implied_prob 0 = none := by
  unfold implied_prob
  rw [if_neg h, if_pos rfl]
  exact ⟨rfl, rfl⟩

theorem implied_prob_spec_witness :
    (2:ℚ) ≠ 0 ∧ (implied_prob 2 = some (1/2) ∧ implied_prob 0 = none) := by
  refine ⟨by norm_num, ?_⟩
  have h := implied_prob_spec 2 (by norm_num)
  simpa using h

/-- C6: the defensive confidence bump promotes an OVER totals pick landing in a
mid tier by exactly one ordinal step when either side has a defensive tier-1 or
tier-2 player out, never promotes past ELITE, and never applies to non-OVER
picks. -/
theorem def_bump_one_step (hc ac : InjuryCtx)
    (hdef : (hc.def_tier_1_out || ac.def_tier_1_out
             || hc.def_tier_2_out || ac.def_tier_2_out) = true) :
    (∀ t, (t = "LEAN" ∨ t = "STRONG" ∨ t = "VERY STRONG") →
      tierRank (def_bump "OVER" t hc ac) = tierRank t + 1)
    ∧ def_bump "OVER" "LEAN" hc ac = "STRONG"
    ∧ def_bump "OVER" "STRONG" hc ac = "VERY STRONG"
    ∧ def_bump "OVER" "VERY STRONG" hc ac = "ELITE"
    ∧ def_bump "OVER" "ELITE" hc ac = "ELITE"
    ∧ (∀ side t, side ≠ "OVER" → def_bump side t hc ac = t) := by
  refine ⟨?_, ?_, ?_, ?_, ?_, ?_⟩
  · intro t ht
    rcases ht with rfl | rfl | rfl <;>
      simp [def_bump, bump_map, hdef, tierRank]
  · simp [def_bump, bump_map, hdef]
  · simp [def_bump, bump_map, hdef]
  · simp [def_bump, bump_map, hdef]
  · simp [def_bump, bump_map]
  · intro side t hside
    simp [def_bump, hside]

theorem def_bump_one_step_witness :
    (({ def_tier_1_out := true } : InjuryCtx).def_tier_1_out
      || ({} : InjuryCtx).def_tier_1_out
      || ({ def_tier_1_out := true } : InjuryCtx).def_tier_2_out
      || ({} : InjuryCtx).def_tier_2_out) = true
    ∧ def_bump "OVER" "LEAN" { def_tier_1_out := true } {} = "STRONG" := by
  constructor
  · decide
  · exact (def_bump_one_step { def_tier_1_out := true } {} (by decide)).2.1

/-- C5 counterexample: with `home_team = "B"` and the designated home side
(team B) playing in Denver, the claim calls for +0.6 on team B and -0.4 on
team A; the code keys the altitude step to team A (`home_abbr =
team_name_to_abbr(req.team_a)`), so no altitude adjustment is applied at all:
the adjusted projections are exactly home-court on B and nothing else. -/
theorem altitude_ignores_home_designation :
    team_name_to_abbr req5.team_a = some "BOS"
    ∧ team_name_to_abbr req5.team_b = some "DEN"
    ∧ req5.home_team = "B"
    ∧ "DEN" ∈ HIGH_ALTITUDE
    ∧ adjust_points req5 "BOS" = (115, 229/2)
    ∧ adjust_points req5 "BOS" ≠ (115 - 2/5, 112 + 5/2 + 3/5) := by
  decide

/-- C5 amended: the altitude step is keyed to team A, which the model always
treats as the home venue: whenever team A resolves to a high-altitude
abbreviation the adjuster adds +0.6 to team A and subtracts 0.4 from team B on
top of every other adjustment, regardless of the `home_team` designation; the
claim as stated holds only when `home_team = "A"`. -/
theorem altitude_bonus_team_a (req : SimulationRequest) (home_abbr : String)
    (h : home_abbr ∈ HIGH_ALTITUDE) :
    adjust_points req home_abbr
      = ((adjust_points_pre_altitude req).1 + 3/5,
         (adjust_points_pre_altitude req).2 - 2/5) := by
  unfold adjust_points
  rw [if_pos h]

theorem altitude_bonus_team_a_witness :
    "DEN" ∈ HIGH_ALTITUDE
    ∧ adjust_points req5 "DEN"
      = ((adjust_points_pre_altitude req5).1 + 3/5,
         (adjust_points_pre_altitude req5).2 - 2/5) :=
  ⟨by decide, altitude_bonus_team_a req5 "DEN" (by decide)⟩

theorem countEmits_of_mem (k : String) (sent : List String) (ops : List AlertOp)
    (hmem : k ∈ sent) (hno : AlertOp.reset ∉ ops) :
    countEmits k sent ops = 0 := by
  induction ops generalizing sent with
  | nil => rfl
  | cons op rest ih =>
    cases op with
    | reset => exact absurd (List.mem_cons_self _ _) hno
    | eval key =>
      have hno2 : AlertOp.reset ∉ rest := fun hr => hno (List.mem_cons_of_mem _ hr)
      by_cases hk : key ∈ sent
      · simp [countEmits, emit_guarded, hk, ih sent hmem hno2]
      · by_cases hkey : key = k
        · subst hkey
          exact absurd hmem hk
        · simp [countEmits, emit_guarded, hk, hkey,
            ih (sent ++ [key]) (List.mem_append_left _ hmem) hno2]

theorem countEmits_le_one (k : String) (sent : List String) (ops : List AlertOp)
    (hno : AlertOp.reset ∉ ops) :
    countEmits k sent ops ≤ 1 := by
  induction ops generalizing sent with
  | nil => exact Nat.zero_le 1
  | cons op rest ih =>
    cases op with
    | reset => exact absurd (List.mem_cons_self _ _) hno
    | eval key =>
      have hno2 : AlertOp.reset ∉ rest := fun hr => hno (List.mem_cons_of_mem _ hr)
      by_cases hk : key ∈ sent
      · simpa [countEmits, emit_guarded, hk] using ih sent hno2
      · by_cases hkey : key = k
        · subst hkey
          have hz := countEmits_of_mem key (sent ++ [key]) rest
            (List.mem_append_right _ (List.mem_singleton_self _)) hno2
          simp [countEmits, emit_guarded, hk, hz]
        · simpa [countEmits, emit_guarded, hk, hkey] using ih (sent ++ [key]) hno2

theorem countEmits_eq_one (k : String) (sent : List String) (ops : List AlertOp)
    (hno : AlertOp.reset ∉ ops) (hk : k ∉ sent) (hmem : AlertOp.eval k ∈ ops) :
    countEmits k sent ops = 1 := by
  induction ops generalizing sent with
  | nil => exact absurd hmem (List.not_mem_nil _)
  | cons op rest ih =>
    cases op with
    | reset => exact absurd (List.mem_cons_self _ _) hno
    | eval key =>
      have hno2 : AlertOp.reset ∉ rest := fun hr => hno (List.mem_cons_of_mem _ hr)
      by_cases hkey : key = k
      · subst hkey
        have hz := countEmits_of_mem key (sent ++ [key]) rest
          (List.mem_append_right _ (List.mem_singleton_self _)) hno2
        simp [countEmits, emit_guarded, hk, hz]
      · have hmem2 : AlertOp.eval k ∈ rest := by
          rcases List.mem_cons.mp hmem with he | he
          · exact absurd (by injection he.symm) hkey
          · exact he
        by_cases hks : key ∈ sent
        · simp [countEmits, emit_guarded, hks, hkey, ih sent hno2 hk hmem2]
        · have hk2 : k ∉ sent ++ [key] := by
            intro hcontra
            rcases List.mem_append.mp hcontra with hc | hc
            · exact hk hc
            · exact hkey (List.mem_singleton.mp hc).symm
          simp [countEmits, emit_guarded, hks, hkey, ih (sent ++ [key]) hno2 hk2 hmem2]

theorem countEmits_append_reset (k : String) (sent : List String)
    (ops1 ops2 : List AlertOp) :
    countEmits k sent (ops1 ++ AlertOp.reset :: ops2)
      = countEmits k sent ops1 + countEmits k [] ops2 := by
  induction ops1 generalizing sent with
  | nil => simp [countEmits]
  | cons op rest ih =>
    cases op with
    | reset =>
      simp only [List.cons_append, countEmits]
      rw [List.append_eq, ih]
    | eval key =>
      simp only [List.cons_append, countEmits]
      rw [List.append_eq, ih]
      omega

/-- C4: within one alert-epoch (no day-boundary reset in the trace) the guarded
emission fires at most once for any fingerprint, however often the identical
evaluation is replayed; across a day-boundary reset the trailing epoch that
re-evaluates the fingerprint emits it exactly once more; and the reset itself
(`reset_alerts_if_new_day` on a new day) clears both emitted-fingerprint sets
wholesale. -/
theorem dedup_idempotent_per_epoch (k : String) (sent : List String)
    (ops ops1 ops2 : List AlertOp) (d : ℤ) (s : AlertState)
    (hno : AlertOp.reset ∉ ops) (hno2 : AlertOp.reset ∉ ops2)
    (hmem : AlertOp.eval k ∈ ops2) (hd : d ≠ s.alert_day) :
    countEmits k sent ops ≤ 1
    ∧ countEmits k sent (ops1 ++ AlertOp.reset :: ops2)
        = countEmits k sent ops1 + 1
    ∧ (reset_alerts_if_new_day d s).sent_alerts = []
    ∧ (reset_alerts_if_new_day d s).daily_sent_alerts = [] := by
  refine ⟨countEmits_le_one k sent ops hno, ?_, ?_, ?_⟩
  · rw [countEmits_append_reset,
      countEmits_eq_one k [] ops2 hno2 (List.not_mem_nil _) hmem]
  · unfold reset_alerts_if_new_day
    rw [if_pos hd]
  · unfold reset_alerts_if_new_day
    rw [if_pos hd]

theorem dedup_idempotent_per_epoch_witness :
    AlertOp.reset ∉ [AlertOp.eval "k", AlertOp.eval "k"]
    ∧ AlertOp.reset ∉ [AlertOp.eval "k"]
    ∧ AlertOp.eval "k" ∈ [AlertOp.eval "k"]
    ∧ (1 : ℤ) ≠ st0.alert_day
    ∧ (countEmits "k" [] [AlertOp.eval "k", AlertOp.eval "k"] ≤ 1
       ∧ countEmits "k" [] ([AlertOp.eval "k", AlertOp.eval "k"]
            ++ AlertOp.reset :: [AlertOp.eval "k"])
          = countEmits "k" [] [AlertOp.eval "k", AlertOp.eval "k"] + 1
       ∧ (reset_alerts_if_new_day 1 st0).sent_alerts = []
       ∧ (reset_alerts_if_new_day 1 st0).daily_sent_alerts = []) :=
  ⟨by decide, by decide, by decide, by decide,
    dedup_idempotent_per_epoch "k" [] [AlertOp.eval "k", AlertOp.eval "k"]
      [AlertOp.eval "k", AlertOp.eval "k"] [AlertOp.eval "k"] 1 st0
      (by decide) (by decide) (by decide) (by decide)⟩

/-- C1 counterexample: in the `env0` evaluation the spread tier filter fails
(win probability 58 percent gives tier LEAN, not ELITE or VERY STRONG), yet
the spread market still has an entry in the returned results map, because
`run_simulation` stores `results["spread"]` before any spread gate runs. -/
theorem gated_spread_market_still_present :
    runMarkets (run_simulation env0 req0 false st0) = some markets0
    ∧ alookup "spread" markets0 = some (MarketResult.spread 3 58 42)
    ∧ win_prob_tier (max (58:ℚ) 42) ≠ "ELITE"
    ∧ win_prob_tier (max (58:ℚ) 42) ≠ "VERY STRONG" := by
  decide

/-- C1 amended: for the totals markets (full game and quarters) a failing
decision-policy gate (coin-flip sanity band, edge floor, or trap suppression)
leaves the market with no entry in the returned results map; the spread and
moneyline markets instead insert their result records before their tier and
win-probability filters run, so those filters suppress only the alert, not the
map entry. -/
theorem gated_totals_market_absent (env : Env) (req : SimulationRequest)
    (itw : Bool) (sta : AlertState) (m : String)
    (hm : m ∈ (["game", "q1", "q2", "q3", "q4"] : List String))
    (hg : runGateFailing env req itw sta m = true) :
    runMarketEntry (run_simulation env req itw sta) m = none := by
  have hm2 : m = "game" ∨ m = "q1" ∨ m = "q2" ∨ m = "q3" ∨ m = "q4" := by
    simpa using hm
  unfold runGateFailing at hg
  cases hb : buildEvalCtx env req itw sta with
  | invalid st =>
    rw [hb] at hg
    simp at hg
  | empty g st =>
    rw [hb] at hg
    simp at hg
  | proceed c st =>
    rw [hb] at hg
    have hg2 : totalsGateFailing c m (cfgOfMarket m) = true := hg
    have hrun : run_simulation env req itw sta
        = match runMarketLoop c
            { results := [], alerts := st, msgs := [], daily_message := none } with
          | Except.error e => Except.error e
          | Except.ok out =>
            Except.ok (RunResult.ok c.game_id out.results, out.alerts, out.msgs) := by
      unfold run_simulation
      rw [hb]
    cases hl : runMarketLoop c
        { results := [], alerts := st, msgs := [], daily_message := none } with
    | error e =>
      rw [hrun, hl]
      rfl
    | ok out =>
      rw [hrun, hl]
      show alookup m out.results = none
      exact runMarketLoop_gate_absent c _ out m hl hm2 hg2 rfl

theorem gated_totals_market_absent_witness :
    "game" ∈ (["game", "q1", "q2", "q3", "q4"] : List String)
    ∧ runGateFailing env0 req0 false st0 "game" = true
    ∧ runMarketEntry (run_simulation env0 req0 false st0) "game" = none :=
  ⟨by decide, by decide,
    gated_totals_market_absent env0 req0 false st0 "game" (by decide) (by decide)⟩

/-- C2 failing input (code bug): in the `env2` evaluation the full-game total
passes every gate and its dedup fingerprint is registered (the emitted set
grows to one key), and the pregame slot `BOS_vs_MIA_GAME_PREGAME` was
prequeued in the same call; yet no message is handed to the delivery
collaborator (the send / queue section of the source is empty) and the queued
slot's message stays `None`, because the attach key is the lower-case
`BOS_vs_MIA_game_PREGAME`, which is never in `PREGAME_ALERTS`. -/
theorem totals_alert_payload_dropped :
    (runMarketEntry (run_simulation env2 req0 false st0) "game").isSome = true
    ∧ (runAlertState (run_simulation env2 req0 false st0)).map
        (fun s => s.sent_alerts.length) = some 1
    ∧ (runAlertState (run_simulation env2 req0 false st0)).map
        (fun s => (alookup "BOS_vs_MIA_GAME_PREGAME" s.pregame_alerts).map
          (fun p => p.message)) = some (some none)
    ∧ runMsgs (run_simulation env2 req0 false st0) = some [] := by
  decide

/-- C3: whenever an evaluation returns a results map containing a moneyline
(h2h) record, the markets appear in the fixed `MARKET_CONFIG` order with
spread preceding h2h, and the h2h record's home and away win percentages are
exactly the ones stored in the spread record of the same pass. -/
theorem h2h_reuses_spread_win_pct (env : Env) (req : SimulationRequest)
    (itw : Bool) (sta : AlertState) (markets : List (String × MarketResult))
    (hp ap fh fa : ℚ)
    (hms : runMarkets (run_simulation env req itw sta) = some markets)
    (hh : alookup "h2h" markets = some (MarketResult.h2h hp ap fh fa)) :
    List.Sublist (markets.map Prod.fst) MARKET_ORDER
    ∧ ∃ fs, alookup "spread" markets = some (MarketResult.spread fs hp ap) := by
  cases hb : buildEvalCtx env req itw sta with
  | invalid st =>
    have hrun : run_simulation env req itw sta
        = Except.ok (RunResult.invalid, st, []) := by
      unfold run_simulation
      rw [hb]
    rw [hrun] at hms
    exact absurd hms (by simp [runMarkets])
  | empty g st =>
    have hrun : run_simulation env req itw sta
        = Except.ok (RunResult.ok g [], st, []) := by
      unfold run_simulation
      rw [hb]
    rw [hrun] at hms
    simp only [runMarkets, Option.some.injEq] at hms
    subst hms
    exact absurd hh (by simp [alookup])
  | proceed c st =>
    have hrun : run_simulation env req itw sta
        = match runMarketLoop c
            { results := [], alerts := st, msgs := [], daily_message := none } with
          | Except.error e => Except.error e
          | Except.ok out =>
            Except.ok (RunResult.ok c.game_id out.results, out.alerts, out.msgs) := by
      unfold run_simulation
      rw [hb]
    cases hl : runMarketLoop c
        { results := [], alerts := st, msgs := [], daily_message := none } with
    | error e =>
      rw [hrun, hl] at hms
      exact absurd hms (by simp [runMarkets])
    | ok out =>
      rw [hrun, hl] at hms
      simp only [runMarkets, Option.some.injEq] at hms
      subst hms
      constructor
      · exact runMarketLoop_keys_sublist c _ out hl rfl
      · exact runMarketLoop_h2h_copies_spread c _ out hl rfl rfl hp ap fh fa hh

theorem h2h_reuses_spread_win_pct_witness :
    runMarkets (run_simulation env0 req0 false st0) = some markets0
    ∧ alookup "h2h" markets0 = some (MarketResult.h2h 58 42 (43/25) (119/50))
    ∧ (List.Sublist (markets0.map Prod.fst) MARKET_ORDER
       ∧ ∃ fs, alookup "spread" markets0 = some (MarketResult.spread fs 58 42)) :=
  ⟨by decide, by decide,
    h2h_reuses_spread_win_pct env0 req0 false st0 markets0 58 42 (43/25) (119/50)
      (by decide) (by decide)⟩

/-- C7 counterexample: both team names resolve and the odds feed has a
nonempty entry for the matchup, but that entry holds no usable core market
(only the non-core `h2h` key); the evaluation then returns Python `None`
(modelled `RunResult.invalid`, so no markets map at all), not the distinct
empty-markets record the claim requires. -/
theorem no_core_market_returns_invalid :
    team_name_to_abbr "Boston Celtics" = some "BOS"
    ∧ team_name_to_abbr "Miami Heat" = some "MIA"
    ∧ truthyDict (pyOr (alookup ("BOS", "MIA") env1.odds_map)
        (alookup ("MIA", "BOS") env1.odds_map)) = true
    ∧ has_core_market ((pyOr (alookup ("BOS", "MIA") env1.odds_map)
        (alookup ("MIA", "BOS") env1.odds_map)).getD []) = false
    ∧ runMarkets (run_simulation env1 req1 true st0) = none
    ∧ runMsgs (run_simulation env1 req1 true st0) = some []
    ∧ runAlertState (run_simulation env1 req1 true st0) = some st0 := by
  decide

/-- C7 amended: when both names resolve and the odds map has no (or an empty)
entry for the matchup, the evaluation returns the explicit empty-markets
record; but when a nonempty matchup entry exists containing no usable core
market the evaluation returns `None` (`RunResult.invalid`), the same value
returned for unrecognized team names. -/
theorem empty_vs_invalid_markets (env : Env) (req : SimulationRequest)
    (sta : AlertState) (A B : String) (gt : ℚ)
    (h1 : team_name_to_abbr req.team_a = some A)
    (h2 : team_name_to_abbr req.team_b = some B)
    (h3 : req.game_time = some gt) :
    (truthyDict (pyOr (alookup (A, B) env.odds_map)
        (alookup (B, A) env.odds_map)) = false →
      ∃ st2, run_simulation env req true sta
        = Except.ok (RunResult.ok (A ++ "_vs_" ++ B) [], st2, []))
    ∧ (truthyDict (pyOr (alookup (A, B) env.odds_map)
        (alookup (B, A) env.odds_map)) = true →
       has_core_market ((pyOr (alookup (A, B) env.odds_map)
        (alookup (B, A) env.odds_map)).getD []) = false →
      ∃ st2, run_simulation env req true sta
        = Except.ok (RunResult.invalid, st2, [])) := by
  constructor
  · intro htr
    simp only [run_simulation, buildEvalCtx, h1, h2, h3]
    rw [if_neg (by simp)]
    rw [if_pos (by simp [htr])]
    exact ⟨_, rfl⟩
  · intro htr hcore
    simp only [run_simulation, buildEvalCtx, h1, h2, h3]
    rw [if_neg (by simp)]
    rw [if_neg (by simp [htr])]
    rw [if_pos (by simp [hcore])]
    exact ⟨_, rfl⟩

theorem empty_vs_invalid_markets_witness :
    team_name_to_abbr req1.team_a = some "BOS"
    ∧ team_name_to_abbr req1.team_b = some "MIA"
    ∧ req1.game_time = some 1000
    ∧ ((truthyDict (pyOr (alookup ("BOS", "MIA") env1.odds_map)
          (alookup ("MIA", "BOS") env1.odds_map)) = false →
        ∃ st2, run_simulation env1 req1 true st0
          = Except.ok (RunResult.ok ("BOS" ++ "_vs_" ++ "MIA") [], st2, []))
       ∧ (truthyDict (pyOr (alookup ("BOS", "MIA") env1.odds_map)
          (alookup ("MIA", "BOS") env1.odds_map)) = true →
          has_core_market ((pyOr (alookup ("BOS", "MIA") env1.odds_map)
            (alookup ("MIA", "BOS") env1.odds_map)).getD []) = false →
        ∃ st2, run_simulation env1 req1 true st0
          = Except.ok (RunResult.invalid, st2, []))) :=
  ⟨by decide, by decide, by decide,
    empty_vs_invalid_markets env1 req1 st0 "BOS" "MIA" 1000
      (by decide) (by decide) (by decide)⟩
